import Mathlib

/-!
Verification of the repository/analytics layer of the DocuExpress bookkeeping
application (`ARCHIVOS/database.py`).

The relational store (SQLAlchemy over SQLite) is shallowly embedded as lists
of records; each repository method is translated into a pure function over an
explicit `Store`.  Monetary values (Python floats) are modelled as exact
rationals `ℚ`; dates (stored as ISO datetimes, compared lexicographically by
SQLite) are modelled as `(year, month, day)` triples with lexicographic order.
Python's `round(x, 1)` (round-half-to-even) is modelled exactly on `ℚ`.
-/

/-- Calendar date `(year, month, day)`.  SQLite compares the stored ISO
`YYYY-MM-DD` strings lexicographically, which on well-formed dates is exactly
the lexicographic order on the `(y, m, d)` triple. -/
structure Date where
  y : Nat
  m : Nat
  d : Nat
deriving DecidableEq, Repr

/-- Lexicographic `≤` on dates, as SQLite's comparison of ISO date strings. -/
def Date.ble (a b : Date) : Bool :=
  a.y < b.y || (a.y == b.y && (a.m < b.m || (a.m == b.m && a.d ≤ b.d)))

/-- A well-formed calendar date: month in 1..12, day at least 1. -/
def Date.Valid (a : Date) : Prop := 1 ≤ a.m ∧ a.m ≤ 12 ∧ 1 ≤ a.d

/-- The month of a date as a single index (`year * 12 + (month - 1)`), the
counterpart of the `'%Y-%m'` grouping key `strftime` produces: two dates get
the same index iff they render the same `YYYY-MM` string. -/
def Date.monthIdx (a : Date) : Nat := a.y * 12 + (a.m - 1)

/-- First day of the month with the given index (inverse of `monthIdx`). -/
def monthIdxToDate (i : Nat) : Date := ⟨i / 12, i % 12 + 1, 1⟩

/-- Round to the nearest integer, ties to even: the rounding Python's built-in
`round` applies. -/
def pyRound (x : ℚ) : ℤ :=
  if x - ⌊x⌋ < 1 / 2 then ⌊x⌋
  else if x - ⌊x⌋ > 1 / 2 then ⌊x⌋ + 1
  else if ⌊x⌋ % 2 = 0 then ⌊x⌋ else ⌊x⌋ + 1

/-- Python's `round(x, 1)`: round to one decimal place, ties to even. -/
def round1 (x : ℚ) : ℚ := (pyRound (x * 10) : ℚ) / 10

/-- ASCII upper-casing of a string, Python's `str.upper` on the ASCII names
this application uses. -/
def pyUpper (s : String) : String := String.mk (s.data.map Char.toUpper)

/-- Whitespace test used by Python's `str.strip`. -/
def isPySpace (c : Char) : Bool := c = ' ' || c = '\t' || c = '\n' || c = '\r'

/-- Python's `str.strip`: drop leading and trailing whitespace. -/
def pyStrip (s : String) : String :=
  String.mk (((s.data.dropWhile isPySpace).reverse.dropWhile isPySpace).reverse)

/-- Model of `nombre.strip().upper()`, the shop-name normalization in
`PapeleriaRepository.add` / `update_name` / `exists_with_name`. -/
def normalizeNombre (s : String) : String := pyUpper (pyStrip s)

/-- Row of the `papeleria` table. -/
structure Papeleria where
  id : Nat
  nombre : String
  user_id : Nat
  is_active : Bool
deriving DecidableEq, Repr

/-- Row of the `tramite` table. -/
structure Tramite where
  id : Nat
  papeleria_id : Nat
  user_id : Nat
  tramite : String
  fecha : Date
  precio : ℚ
  costo : ℚ
deriving DecidableEq

/-- Row of the `gasto` table. -/
structure Gasto where
  id : Nat
  user_id : Nat
  proveedor_id : Nat
  descripcion : String
  monto : ℚ
  fecha : Date
  categoria : String
deriving DecidableEq

/-- Row of the `proveedor` table. -/
structure Proveedor where
  id : Nat
  user_id : Nat
  nombre : String
deriving DecidableEq

/-- Row of the `papeleria_precio` table. -/
structure PapeleriaPrecio where
  id : Nat
  papeleria_id : Nat
  tramite : String
  precio : ℚ
deriving DecidableEq

/-- The relational store.  `next_papeleria_id` / `next_precio_id` model the
autoincrementing primary keys. -/
structure Store where
  papelerias : List Papeleria
  tramites : List Tramite
  gastos : List Gasto
  precios : List PapeleriaPrecio
  proveedores : List Proveedor
  next_papeleria_id : Nat
  next_precio_id : Nat
deriving DecidableEq

/-- Model of `Papeleria.query.filter_by(id=papeleria_id, user_id=user_id, is_active=True)`:
the row visibility test shared by `delete`, `set_precios_bulk`, `get_name`. -/
def visibleShop (pid uid : Nat) (p : Papeleria) : Bool :=
  p.id == pid && p.user_id == uid && p.is_active

/-- The join `Tramite.papeleria_id == Papeleria.id` with
`Papeleria.is_active == True`: a transaction row survives the inner join to an
active shop iff some active shop row carries its `papeleria_id`. -/
def Store.joinsActive (s : Store) (t : Tramite) : Bool :=
  s.papelerias.any (fun p => p.id == t.papeleria_id && p.is_active)

/-- The pattern `if fecha_inicio and fecha_fin: query.filter(between/>=<=)`:
the date restriction is applied only when both bounds are supplied, and it is
inclusive at both ends. -/
def dateFilterOk (fi fo : Option Date) (d : Date) : Bool :=
  match fi, fo with
  | some a, some b => a.ble d && d.ble b
  | _, _ => true

/-- Totals record returned by `get_total_general` / `total_por_papeleria`. -/
structure Totales where
  cuantos : Nat
  total_ingresos : ℚ
  total_costos : ℚ
  ganancia : ℚ
deriving DecidableEq

namespace TramiteRepository

/-- The row set of the aggregate in `TramiteRepository.get_total_general`:
transactions filtered by tenant and, when both bounds are present, by the
inclusive date range.  No join to `papeleria` occurs, so no active-shop
restriction applies here. -/
def total_general_query (s : Store) (user_id : Nat) (fecha_inicio fecha_fin : Option Date) :
    List Tramite :=
  s.tramites.filter (fun t => t.user_id == user_id && dateFilterOk fecha_inicio fecha_fin t.fecha)

/-- Model of `TramiteRepository.get_total_general`. -/
def get_total_general (s : Store) (user_id : Nat) (fecha_inicio fecha_fin : Option Date) :
    Totales :=
  let rows := total_general_query s user_id fecha_inicio fecha_fin
  let ingresos := (rows.map (·.precio)).sum
  let costos := (rows.map (·.costo)).sum
  { cuantos := rows.length
    total_ingresos := ingresos
    total_costos := costos
    ganancia := ingresos - costos }

/-- The row set of `TramiteRepository.get_details_for_papeleria` before
ordering and pagination: transactions of the given shop and tenant, joined to
an active shop row, optionally restricted to the inclusive date range. -/
def details_query (s : Store) (papeleria_id user_id : Nat)
    (fecha_inicio fecha_fin : Option Date) : List Tramite :=
  s.tramites.filter (fun t =>
    t.papeleria_id == papeleria_id && t.user_id == user_id && s.joinsActive t &&
      dateFilterOk fecha_inicio fecha_fin t.fecha)

/-- The `ORDER BY fecha DESC, id DESC` comparison for transactions. -/
def tramiteDescOrder (a b : Tramite) : Bool :=
  if a.fecha == b.fecha then b.id ≤ a.id else Date.ble b.fecha a.fecha

/-- Model of `TramiteRepository.get_details_for_papeleria`: filtered rows ordered by
`fecha DESC, id DESC` and paginated; returns `(items, total, pages)`. -/
def get_details_for_papeleria (s : Store) (papeleria_id user_id : Nat)
    (fecha_inicio fecha_fin : Option Date) (page : Nat := 1) (per_page : Nat := 20) :
    List Tramite × Nat × Nat :=
  let rows := details_query s papeleria_id user_id fecha_inicio fecha_fin
  let sorted := rows.mergeSort tramiteDescOrder
  let items := (sorted.drop ((page - 1) * per_page)).take per_page
  (items, rows.length, (rows.length + per_page - 1) / per_page)

end TramiteRepository

/-- Classification of one submitted price string, as Python's
`set_precios_bulk` distinguishes them: falsy or whitespace-only strings
(`not precio_str or not str(precio_str).strip()`), strings `float` rejects,
and strings `float` parses to the rational `v`. -/
inductive PrecioVal where
  | blank
  | invalid (raw : String)
  | num (v : ℚ)
deriving DecidableEq

/-- The validation-error message produced for one entry of `precios_data`, if
any: `blank` entries are skipped, unparsable strings and negative values each
yield one message; `0` passes. -/
def precioError (e : String × PrecioVal) : Option String :=
  match e.2 with
  | .blank => none
  | .invalid raw =>
      some ("El precio para '" ++ e.1 ++ "' ('" ++ raw ++ "') no es un número válido.")
  | .num v => if v < 0 then some ("El precio para '" ++ e.1 ++ "' no puede ser negativo.") else none

/-- The entry survives validation with value `v`: non-blank, parsed, `0 ≤ v`. -/
def precioValid (e : String × PrecioVal) : Option (String × ℚ) :=
  match e.2 with
  | .blank => none
  | .invalid _ => none
  | .num v => if v < 0 then none else some (e.1, v)

/-- Does a stored price row carry the given `(papeleria_id, tramite)` key? -/
def precioKey (pid : Nat) (tr : String) (r : PapeleriaPrecio) : Bool :=
  r.papeleria_id == pid && r.tramite == tr

namespace PapeleriaRepository

/-- Model of `PapeleriaRepository.add`: normalize the name; fail on an active
duplicate; reactivate an inactive row with the same name; otherwise insert a
fresh active row.  A `ValueError` is modelled as `Except.error`; on error the
session is untouched, so no store is returned. -/
def add (s : Store) (nombre : String) (user_id : Nat) : Except String (Papeleria × Store) :=
  let normalized_nombre := normalizeNombre nombre
  match s.papelerias.find?
      (fun p => p.nombre == normalized_nombre && p.user_id == user_id && p.is_active) with
  | some _ => .error ("La papelería '" ++ nombre ++ "' ya existe y está activa.")
  | none =>
    match s.papelerias.find?
        (fun p => p.nombre == normalized_nombre && p.user_id == user_id && !p.is_active) with
    | some p =>
        let reactivated :=
          s.papelerias.map (fun r => if r.id == p.id then { r with is_active := true } else r)
        .ok ({ p with is_active := true }, { s with papelerias := reactivated })
    | none =>
        let new_papeleria : Papeleria :=
          ⟨s.next_papeleria_id, normalized_nombre, user_id, true⟩
        .ok (new_papeleria,
          { s with papelerias := s.papelerias ++ [new_papeleria],
                   next_papeleria_id := s.next_papeleria_id + 1 })

/-- Model of `PapeleriaRepository.delete`: soft delete — set `is_active := false` on
the tenant's active shop row with that id; no-op when no such row exists. -/
def delete (s : Store) (papeleria_id user_id : Nat) : Store :=
  match s.papelerias.find? (visibleShop papeleria_id user_id) with
  | some p =>
      let deactivated :=
        s.papelerias.map (fun r => if r.id == p.id then { r with is_active := false } else r)
      { s with papelerias := deactivated }
  | none => s

/-- One iteration of the upsert loop in `set_precios_bulk`: look the key up in
the price rows that existed when the transaction started (`pre`; the Python
dict comprehension keeps the last row on key collisions), update that row in
place if found, else insert a fresh row. -/
def bulkStep (pre : List PapeleriaPrecio) (pid : Nat)
    (acc : List PapeleriaPrecio × Nat) (e : String × ℚ) : List PapeleriaPrecio × Nat :=
  match (pre.filter (precioKey pid e.1)).getLast? with
  | some row =>
      (acc.1.map (fun r => if r.id == row.id then { r with precio := e.2 } else r), acc.2)
  | none => (acc.1 ++ [⟨acc.2, pid, e.1, e.2⟩], acc.2 + 1)

/-- Model of `PapeleriaRepository.set_precios_bulk`.  Returns
`((valid_precios?, errors), store)`: an absent result with one message when
the shop is not visible, an absent result with all accumulated messages (and
an unchanged store) when any entry fails validation, else the valid prices
upserted in one transaction. -/
def set_precios_bulk (s : Store) (papeleria_id : Nat)
    (precios_data : List (String × PrecioVal)) (user_id : Nat) :
    (Option (List (String × ℚ)) × List String) × Store :=
  if (s.papelerias.find? (visibleShop papeleria_id user_id)).isSome then
    let errors := precios_data.filterMap precioError
    let valid_precios := precios_data.filterMap precioValid
    if errors.isEmpty then
      let pre := s.precios.filter (fun r => r.papeleria_id == papeleria_id)
      let result := valid_precios.foldl (bulkStep pre papeleria_id) (s.precios, s.next_precio_id)
      ((some valid_precios, []), { s with precios := result.1, next_precio_id := result.2 })
    else
      ((none, errors), s)
  else
    ((none, ["La papelería no existe o no tienes permiso."]), s)

/-- The percentage-change helper `calcular_porcentaje` nested inside
`get_totales_comparativa`. -/
def calcular_porcentaje (actual anterior : ℚ) : ℚ :=
  if anterior = 0 then (if actual > 0 then 100 else 0)
  else round1 ((actual - anterior) / anterior * 100)

/-- Result record of `get_totales_comparativa`. -/
structure Comparativa where
  ganancia_actual : ℚ
  ganancia_anterior : ℚ
  cambio_ganancia : ℚ
  porcentaje_ganancia : ℚ
  ingresos_porcentaje : ℚ
  costos_porcentaje : ℚ
deriving DecidableEq

/-- Month-to-date transaction rows of `get_totales_comparativa`: the tenant's
transactions at active shops dated on or after the first of `hoy`'s month. -/
def comparativa_rows_actual (s : Store) (user_id : Nat) (hoy : Date) : List Tramite :=
  s.tramites.filter (fun t =>
    t.user_id == user_id && s.joinsActive t && Date.ble ⟨hoy.y, hoy.m, 1⟩ t.fecha)

/-- Previous-calendar-month rows of `get_totales_comparativa`: between the
first and the last day of the month before `hoy`'s (both inclusive). -/
def comparativa_rows_anterior (s : Store) (user_id : Nat) (hoy : Date) : List Tramite :=
  let prevIdx := hoy.monthIdx - 1
  let inicio := monthIdxToDate prevIdx
  let ultimo : Date := ⟨inicio.y, inicio.m, 31⟩
  s.tramites.filter (fun t =>
    t.user_id == user_id && s.joinsActive t &&
      Date.ble inicio t.fecha && Date.ble t.fecha ultimo)

/-- Model of `PapeleriaRepository.get_totales_comparativa`, with `date.today()` passed
in as `hoy`.  `fin_mes_anterior` (the day before the first of the current
month) is the last day of the previous month; on well-formed stored dates the
bound `fecha ≤ last-day-of-month` is equivalent to the day-31 bound used
here. -/
def get_totales_comparativa (s : Store) (user_id : Nat) (hoy : Date) : Comparativa :=
  let actual := comparativa_rows_actual s user_id hoy
  let anterior := comparativa_rows_anterior s user_id hoy
  let ingresos_actual := (actual.map (·.precio)).sum
  let costos_actual := (actual.map (·.costo)).sum
  let ganancia_actual := ingresos_actual - costos_actual
  let ingresos_anterior := (anterior.map (·.precio)).sum
  let costos_anterior := (anterior.map (·.costo)).sum
  let ganancia_anterior := ingresos_anterior - costos_anterior
  { ganancia_actual := ganancia_actual
    ganancia_anterior := ganancia_anterior
    cambio_ganancia := ganancia_actual - ganancia_anterior
    porcentaje_ganancia := calcular_porcentaje ganancia_actual ganancia_anterior
    ingresos_porcentaje := calcular_porcentaje ingresos_actual ingresos_anterior
    costos_porcentaje := calcular_porcentaje costos_actual costos_anterior }

/-- Descending comparison on the aggregate value (`ORDER BY ... DESC`). -/
def byGananciaDesc (a b : String × ℚ) : Bool := decide (b.2 ≤ a.2)

/-- The grouped rows of `PapeleriaRepository.get_top_by_ganancia` before
ordering and `LIMIT`.  The query left-outer-joins the tenant's active shops to
their transactions (join condition: `papeleria_id` only) and groups by shop;
`SUM(COALESCE(precio,0)) - SUM(COALESCE(costo,0))` over the null-extended row
of a transactionless shop is `0`.  When a date range is supplied it lands in
the `WHERE` clause, where the null-extended rows (and every out-of-range row)
fail the comparison, so a shop keeps a group only if it has at least one
transaction inside the range. -/
def top_groups (s : Store) (user_id : Nat) (fecha_inicio fecha_fin : Option Date) :
    List (String × ℚ) :=
  (s.papelerias.filter (fun p => p.user_id == user_id && p.is_active)).filterMap
    (fun p =>
      let ts := s.tramites.filter (fun t => t.papeleria_id == p.id)
      match fecha_inicio, fecha_fin with
      | some a, some b =>
          let ts2 := ts.filter (fun t => Date.ble a t.fecha && Date.ble t.fecha b)
          if ts2.isEmpty then none
          else some (p.nombre, (ts2.map (·.precio)).sum - (ts2.map (·.costo)).sum)
      | _, _ => some (p.nombre, (ts.map (·.precio)).sum - (ts.map (·.costo)).sum))

/-- Model of `PapeleriaRepository.get_top_by_ganancia`: grouped profits ordered
descending, truncated to `limit` (default 10). -/
def get_top_by_ganancia (s : Store) (user_id : Nat) (limit : Nat := 10)
    (fecha_inicio : Option Date := none) (fecha_fin : Option Date := none) :
    List (String × ℚ) :=
  ((top_groups s user_id fecha_inicio fecha_fin).mergeSort byGananciaDesc).take limit

/-- The row set of `PapeleriaRepository.total_por_papeleria`: the shop's and
tenant's transactions, optionally restricted to the inclusive date range.  No
join to `papeleria`, so no active-shop restriction applies. -/
def total_por_papeleria_query (s : Store) (papeleria_id user_id : Nat)
    (fecha_inicio fecha_fin : Option Date) : List Tramite :=
  s.tramites.filter (fun t =>
    t.papeleria_id == papeleria_id && t.user_id == user_id &&
      dateFilterOk fecha_inicio fecha_fin t.fecha)

/-- Model of `PapeleriaRepository.total_por_papeleria`. -/
def total_por_papeleria (s : Store) (papeleria_id user_id : Nat)
    (fecha_inicio fecha_fin : Option Date) : Totales :=
  let rows := total_por_papeleria_query s papeleria_id user_id fecha_inicio fecha_fin
  let ingresos := (rows.map (·.precio)).sum
  let costos := (rows.map (·.costo)).sum
  { cuantos := rows.length
    total_ingresos := ingresos
    total_costos := costos
    ganancia := ingresos - costos }

end PapeleriaRepository

namespace GastoRepository

/-- The row set of `GastoRepository.get_all` before ordering and pagination:
the tenant's expenses, optionally restricted to the inclusive date range (only
when both bounds are present) and to a category, inner-joined to their
supplier row. -/
def get_all_query (s : Store) (user_id : Nat) (fecha_inicio fecha_fin : Option Date)
    (categoria : Option String) : List Gasto :=
  s.gastos.filter (fun g =>
    g.user_id == user_id && dateFilterOk fecha_inicio fecha_fin g.fecha &&
      (match categoria with
       | some c => g.categoria == c
       | none => true) &&
      s.proveedores.any (fun pr => pr.id == g.proveedor_id))

/-- The `ORDER BY fecha DESC, id DESC` comparison for expenses. -/
def gastoDescOrder (a b : Gasto) : Bool :=
  if a.fecha == b.fecha then b.id ≤ a.id else Date.ble b.fecha a.fecha

/-- Model of `GastoRepository.get_all`: filtered rows ordered by `fecha DESC, id DESC`
and paginated; returns `(items, total)`. -/
def get_all (s : Store) (user_id : Nat) (page : Nat := 1) (per_page : Nat := 20)
    (fecha_inicio : Option Date := none) (fecha_fin : Option Date := none)
    (categoria : Option String := none) : List Gasto × Nat :=
  let rows := get_all_query s user_id fecha_inicio fecha_fin categoria
  let sorted := rows.mergeSort gastoDescOrder
  ((sorted.drop ((page - 1) * per_page)).take per_page, rows.length)

end GastoRepository

/-- The month-enumeration loop of `get_monthly_summary`:
`while current_date <= end_date: months.append(...); current_date += 1 month`.
`current_date` is always the first day of a month, so the date comparison
agrees with comparing month indices; the loop is phrased on indices here. -/
def monthsLoop (endIdx curIdx : Nat) : List Nat :=
  if curIdx ≤ endIdx then curIdx :: monthsLoop endIdx (curIdx + 1) else []
termination_by endIdx + 1 - curIdx
decreasing_by omega

/-- Row of `monthly_data`: one calendar month (as a month index standing for
its `YYYY-MM` key) with its summed income, expense and profit. -/
structure MonthRow where
  month : Nat
  ingresos : ℚ
  gastos : ℚ
  ganancias : ℚ
deriving DecidableEq

/-- The `totals` record of `get_monthly_summary`. -/
structure MonthlyTotals where
  total_ingresos : ℚ
  total_gastos : ℚ
  total_ganancia : ℚ
deriving DecidableEq

/-- Result of `get_monthly_summary`. -/
structure MonthlySummary where
  monthly_data : List MonthRow
  totals : MonthlyTotals
deriving DecidableEq

namespace TramiteRepository

/-- The `(start_date, end_date)` window of `get_monthly_summary`: the custom
range with its start snapped to the first of the month when both bounds are
given, else the trailing window from the first of the month 11 months before
`hoy` (`date.today()`) through `hoy`. -/
def monthly_summary_window (hoy : Date) (fecha_inicio fecha_fin : Option Date) :
    Date × Date :=
  match fecha_inicio, fecha_fin with
  | some a, some b => (⟨a.y, a.m, 1⟩, b)
  | _, _ => (monthIdxToDate (hoy.monthIdx - 11), hoy)

/-- Transaction rows feeding `get_monthly_summary`: the tenant's transactions
joined to an active shop, dated inside `[start_date, end_date]` (inclusive). -/
def monthly_summary_tramites (s : Store) (user_id : Nat) (start_date end_date : Date) :
    List Tramite :=
  s.tramites.filter (fun t =>
    t.user_id == user_id && s.joinsActive t &&
      Date.ble start_date t.fecha && Date.ble t.fecha end_date)

/-- Expense rows feeding `get_monthly_summary`: the tenant's expenses dated
inside `[start_date, end_date]` (inclusive); no shop join. -/
def monthly_summary_gastos (s : Store) (user_id : Nat) (start_date end_date : Date) :
    List Gasto :=
  s.gastos.filter (fun g =>
    g.user_id == user_id && Date.ble start_date g.fecha && Date.ble g.fecha end_date)

/-- Model of `TramiteRepository.get_monthly_summary`, with `date.today()` passed in as
`hoy`.  The two grouped queries (transactions and expenses, each grouped by
`strftime('%Y-%m', fecha)`) are merged per month key; the denotation of a
`GROUP BY` month is the per-month sum over the filtered rows.  Months carry no
rows still appear, zero-valued, because the month list is generated
independently. -/
def get_monthly_summary (s : Store) (user_id : Nat) (hoy : Date)
    (fecha_inicio : Option Date := none) (fecha_fin : Option Date := none) :
    MonthlySummary :=
  let w := monthly_summary_window hoy fecha_inicio fecha_fin
  let months := monthsLoop (w.2.monthIdx) (w.1.monthIdx)
  let tramRows := monthly_summary_tramites s user_id w.1 w.2
  let gastoRows := monthly_summary_gastos s user_id w.1 w.2
  let ingresosOf := fun m => ((tramRows.filter (fun t => t.fecha.monthIdx == m)).map (·.precio)).sum
  let gastosOf := fun m =>
    ((tramRows.filter (fun t => t.fecha.monthIdx == m)).map (·.costo)).sum +
      ((gastoRows.filter (fun g => g.fecha.monthIdx == m)).map (·.monto)).sum
  let monthly_data := months.map (fun m =>
    { month := m, ingresos := ingresosOf m, gastos := gastosOf m,
      ganancias := ingresosOf m - gastosOf m : MonthRow })
  let total_ingresos := (monthly_data.map (·.ingresos)).sum
  let total_gastos := (monthly_data.map (·.gastos)).sum
  { monthly_data := monthly_data
    totals := { total_ingresos := total_ingresos, total_gastos := total_gastos,
                total_ganancia := total_ingresos - total_gastos } }

end TramiteRepository

namespace AnalyticsRepository

/-- Descending comparison on the ROI value (`ORDER BY roi DESC`). -/
def byRoiDesc (a b : String × ℚ) : Bool := decide (b.2 ≤ a.2)

/-- The grouped rows of `AnalyticsRepository.get_roi_por_papeleria` before
ordering and `LIMIT`: the tenant's active shops inner-joined to their
transactions (join condition: `papeleria_id` only), grouped per shop, kept
only when `HAVING SUM(costo) > 0` holds (a transactionless shop produces no
group at all, and its sum would be `0` anyway), with
`roi = (SUM(precio) - SUM(costo)) / SUM(costo) * 100` rounded to one
decimal. -/
def roi_groups (s : Store) (user_id : Nat) : List (String × ℚ) :=
  (s.papelerias.filter (fun p => p.user_id == user_id && p.is_active)).filterMap
    (fun p =>
      let ts := s.tramites.filter (fun t => t.papeleria_id == p.id)
      let ingresos := (ts.map (·.precio)).sum
      let costos := (ts.map (·.costo)).sum
      if 0 < costos then some (p.nombre, round1 ((ingresos - costos) / costos * 100))
      else none)

/-- Model of `AnalyticsRepository.get_roi_por_papeleria`: grouped ROI rows ordered
descending, truncated to the top 5. -/
def get_roi_por_papeleria (s : Store) (user_id : Nat) : List (String × ℚ) :=
  ((roi_groups s user_id).mergeSort byRoiDesc).take 5

end AnalyticsRepository

/-- Well-formedness of the price table and its id counter: primary keys are
distinct and below the autoincrement counter, and — as the upsert discipline
guarantees — at most one row exists per `(papeleria_id, tramite)` key. -/
structure PreciosWF (s : Store) : Prop where
  nodup_ids : (s.precios.map (·.id)).Nodup
  ids_lt : ∀ r ∈ s.precios, r.id < s.next_precio_id
  unique_key : ∀ r₁ ∈ s.precios, ∀ r₂ ∈ s.precios,
    r₁.papeleria_id = r₂.papeleria_id → r₁.tramite = r₂.tramite → r₁ = r₂

/-- Well-formedness of the shop table and its id counter: primary keys are
distinct and below the autoincrement counter. -/
structure PapeleriasWF (s : Store) : Prop where
  nodup_ids : (s.papelerias.map (·.id)).Nodup
  ids_lt : ∀ p ∈ s.papelerias, p.id < s.next_papeleria_id

/-! ## Concrete fixture stores used by witnesses and counterexamples -/

/-- Store with one soft-deleted shop of tenant 1 and one transaction attached
to it. -/
def storeC4A : Store :=
  ⟨[⟨1, "A", 1, false⟩], [⟨1, 1, 1, "X", ⟨2024, 5, 10⟩, 100, 0⟩], [], [], [], 2, 1⟩

/-- Fixture `storeC4A` without the transaction. -/
def storeC4B : Store := ⟨[⟨1, "A", 1, false⟩], [], [], [], [], 2, 1⟩

/-- Store with one active shop of tenant 1 and no transactions at all. -/
def storeC6 : Store := ⟨[⟨1, "A", 1, true⟩], [], [], [], [], 2, 1⟩

/-- Store with one active shop of tenant 1 and one transaction with price 100
and cost 50. -/
def storeC7 : Store :=
  ⟨[⟨1, "A", 1, true⟩], [⟨1, 1, 1, "X", ⟨2024, 5, 10⟩, 100, 50⟩], [], [], [], 2, 1⟩


/-- Does one submitted price entry fail validation?  Blank entries do not:
they are skipped before parsing.  Unparsable entries and negative values do;
`0` does not. -/
def precioBad (e : String × PrecioVal) : Bool :=
  match e.2 with
  | .blank => false
  | .invalid _ => true
  | .num v => decide (v < 0)

/-- What C1 asserts of one `get_monthly_summary` result over the window
`[sd, ed]`: one entry per calendar month from `sd`'s month through `ed`'s
month, contiguous; per-month income is the sum of the matching transactions'
prices and per-month expense is the sum of their costs plus the matching
standalone expenses' amounts; months with no matching row are zero-filled;
and the totals are the plain sums of the per-month values. -/
def MonthlySpec (s : Store) (user_id : Nat) (sd ed : Date) (res : MonthlySummary) : Prop :=
  (res.monthly_data.length = ed.monthIdx + 1 - sd.monthIdx) ∧
  (∀ (k : Nat) (hk : k < res.monthly_data.length),
    (res.monthly_data.get ⟨k, hk⟩).month = sd.monthIdx + k) ∧
  (∀ row ∈ res.monthly_data,
    row.ingresos = (((TramiteRepository.monthly_summary_tramites s user_id sd ed).filter
        (fun t => t.fecha.monthIdx == row.month)).map (·.precio)).sum ∧
    row.gastos = (((TramiteRepository.monthly_summary_tramites s user_id sd ed).filter
        (fun t => t.fecha.monthIdx == row.month)).map (·.costo)).sum +
      (((TramiteRepository.monthly_summary_gastos s user_id sd ed).filter
        (fun g => g.fecha.monthIdx == row.month)).map (·.monto)).sum ∧
    row.ganancias = row.ingresos - row.gastos) ∧
  (∀ row ∈ res.monthly_data,
    (∀ t ∈ TramiteRepository.monthly_summary_tramites s user_id sd ed,
      t.fecha.monthIdx ≠ row.month) →
    (∀ g ∈ TramiteRepository.monthly_summary_gastos s user_id sd ed,
      g.fecha.monthIdx ≠ row.month) →
    row.ingresos = 0 ∧ row.gastos = 0 ∧ row.ganancias = 0) ∧
  (res.totals.total_ingresos = (res.monthly_data.map (·.ingresos)).sum ∧
   res.totals.total_gastos = (res.monthly_data.map (·.gastos)).sum ∧
   res.totals.total_ganancia = res.totals.total_ingresos - res.totals.total_gastos)

/-- A store with no rows at all and fresh id counters. -/
def storeEmpty : Store := ⟨[], [], [], [], [], 1, 1⟩

/-- Store with one active shop of tenant 7 and no price rows. -/
def storeC9 : Store := ⟨[⟨1, "A", 7, true⟩], [], [], [], [], 2, 1⟩

/-! ## General lemmas -/

theorem Date.ble_refl (d : Date) : d.ble d = true := by
  simp [Date.ble]

theorem monthsLoop_eq_range :
    ∀ (n s e : Nat), e + 1 - s = n → monthsLoop e s = (List.range n).map (s + ·) := by
  intro n
  induction n with
  | zero =>
      intro s e h
      rw [monthsLoop]
      simp only [List.range_zero, List.map_nil]
      have : ¬ s ≤ e := by omega
      simp [this]
  | succ n ih =>
      intro s e h
      rw [monthsLoop]
      have hse : s ≤ e := by omega
      simp only [hse, if_true]
      rw [ih (s + 1) e (by omega)]
      rw [List.range_succ_eq_map]
      simp only [List.map_cons, List.map_map, Nat.add_zero]
      refine congrArg (s :: ·) (List.map_congr_left ?_)
      intro x _
      simp [Nat.succ_eq_add_one]
      omega

theorem monthIdx_monthIdxToDate (k : Nat) : (monthIdxToDate k).monthIdx = k := by
  simp only [monthIdxToDate, Date.monthIdx, Nat.add_sub_cancel]
  omega

theorem Date.monthIdx_le_of_ble {a b : Date} (hva : a.Valid) (hvb : b.Valid)
    (h : a.ble b = true) : a.monthIdx ≤ b.monthIdx := by
  obtain ⟨ham, ham2, _⟩ := hva
  obtain ⟨hbm, hbm2, _⟩ := hvb
  simp only [Date.ble, Bool.or_eq_true, Bool.and_eq_true, decide_eq_true_eq, beq_iff_eq] at h
  simp only [Date.monthIdx]
  omega

/-- A nodup list whose elements are pairwise equal and which contains `a`
is exactly `[a]`. -/
theorem eq_singleton_of_mem_of_unique {α : Type _} :
    ∀ {l : List α}, l.Nodup → (∀ x ∈ l, ∀ y ∈ l, x = y) → ∀ {a : α}, a ∈ l → l = [a] := by
  intro l
  match l with
  | [] => intro _ _ a ha; cases ha
  | x :: xs =>
      intro hnd huniq a ha
      have hxa : x = a := by
        rcases List.mem_cons.mp ha with h | h
        · exact h.symm
        · exact huniq x (List.mem_cons_self x xs) a ha
      subst hxa
      have hxs : xs = [] := by
        cases xs with
        | nil => rfl
        | cons y ys =>
            exfalso
            have hy : y = x :=
              huniq y (List.mem_cons_of_mem x (List.mem_cons_self y ys)) x
                (List.mem_cons_self x (y :: ys))
            have := (List.nodup_cons.mp hnd).1
            exact this (hy ▸ List.mem_cons_self y ys)
      simp [hxs]

/-! ## C8: date filters apply only when both bounds are present, inclusively -/

/-- C8: for `get_total_general`, `get_details_for_papeleria` and
`GastoRepository.get_all`, supplying only one of the two date bounds behaves
exactly as supplying none, and when both bounds are present a row is kept iff
it passes the base filters and `dateFrom ≤ fecha ≤ dateTo`, both ends
inclusive (a row dated exactly at either bound passes). -/
theorem C8_date_filter_requires_both_bounds_inclusive :
    (∀ s uid a, TramiteRepository.get_total_general s uid (some a) none =
        TramiteRepository.get_total_general s uid none none) ∧
    (∀ s uid b, TramiteRepository.get_total_general s uid none (some b) =
        TramiteRepository.get_total_general s uid none none) ∧
    (∀ s pid uid a page pp,
        TramiteRepository.get_details_for_papeleria s pid uid (some a) none page pp =
          TramiteRepository.get_details_for_papeleria s pid uid none none page pp) ∧
    (∀ s pid uid b page pp,
        TramiteRepository.get_details_for_papeleria s pid uid none (some b) page pp =
          TramiteRepository.get_details_for_papeleria s pid uid none none page pp) ∧
    (∀ s uid page pp a c, GastoRepository.get_all s uid page pp (some a) none c =
        GastoRepository.get_all s uid page pp none none c) ∧
    (∀ s uid page pp b c, GastoRepository.get_all s uid page pp none (some b) c =
        GastoRepository.get_all s uid page pp none none c) ∧
    (∀ s uid a b t, t ∈ TramiteRepository.total_general_query s uid (some a) (some b) ↔
        t ∈ s.tramites ∧ t.user_id = uid ∧ a.ble t.fecha = true ∧ t.fecha.ble b = true) ∧
    (∀ s pid uid a b t, t ∈ TramiteRepository.details_query s pid uid (some a) (some b) ↔
        t ∈ s.tramites ∧ t.papeleria_id = pid ∧ t.user_id = uid ∧ s.joinsActive t = true ∧
          a.ble t.fecha = true ∧ t.fecha.ble b = true) ∧
    (∀ s uid a b c g, g ∈ GastoRepository.get_all_query s uid (some a) (some b) (some c) ↔
        g ∈ s.gastos ∧ g.user_id = uid ∧ a.ble g.fecha = true ∧ g.fecha.ble b = true ∧
          g.categoria = c ∧ (∃ pr ∈ s.proveedores, pr.id = g.proveedor_id)) ∧
    (∀ s uid b t, t ∈ s.tramites → t.user_id = uid → t.fecha.ble b = true →
        t ∈ TramiteRepository.total_general_query s uid (some t.fecha) (some b)) ∧
    (∀ s uid a t, t ∈ s.tramites → t.user_id = uid → a.ble t.fecha = true →
        t ∈ TramiteRepository.total_general_query s uid (some a) (some t.fecha)) := by
  refine ⟨fun s uid a => rfl, fun s uid b => rfl, fun s pid uid a page pp => rfl,
    fun s pid uid b page pp => rfl, fun s uid page pp a c => rfl,
    fun s uid page pp b c => rfl, ?_, ?_, ?_, ?_, ?_⟩
  · intro s uid a b t
    simp [TramiteRepository.total_general_query, List.mem_filter, dateFilterOk, and_assoc]
  · intro s pid uid a b t
    simp [TramiteRepository.details_query, List.mem_filter, dateFilterOk, and_assoc]
  · intro s uid a b c g
    simp [GastoRepository.get_all_query, List.mem_filter, dateFilterOk, and_assoc,
      List.any_eq_true, beq_iff_eq]
  · intro s uid b t ht hu hb
    simp [TramiteRepository.total_general_query, List.mem_filter, dateFilterOk, ht, hu,
      Date.ble_refl, hb]
  · intro s uid a t ht hu ha
    simp [TramiteRepository.total_general_query, List.mem_filter, dateFilterOk, ht, hu,
      Date.ble_refl, ha]

/-- Witness for C8 at a concrete input: the boundary row dated exactly at
`dateFrom` is included. -/
theorem C8_witness :
    (⟨1, 1, 7, "X", ⟨2024, 5, 10⟩, 0, 0⟩ : Tramite) ∈
      TramiteRepository.total_general_query
        ⟨[], [⟨1, 1, 7, "X", ⟨2024, 5, 10⟩, 0, 0⟩], [], [], [], 1, 1⟩ 7
        (some ⟨2024, 5, 10⟩) (some ⟨2024, 6, 1⟩) := by
  refine C8_date_filter_requires_both_bounds_inclusive.2.2.2.2.2.2.2.2.2.1
    ⟨[], [⟨1, 1, 7, "X", ⟨2024, 5, 10⟩, 0, 0⟩], [], [], [], 1, 1⟩ 7 ⟨2024, 6, 1⟩
    ⟨1, 1, 7, "X", ⟨2024, 5, 10⟩, 0, 0⟩ (List.mem_singleton_self _) rfl (by decide)

/-! ## C10: bulk price set against an invisible shop -/

/-- C10: when no active shop row of the calling tenant carries the target id —
the shop does not exist, is soft-deleted, or belongs to another tenant —
`set_precios_bulk` writes nothing and returns an absent result with a
single-element error list. -/
theorem C10_bulk_prices_invisible_shop (s : Store) (papeleria_id user_id : Nat)
    (precios_data : List (String × PrecioVal))
    (h : ∀ p ∈ s.papelerias, ¬ visibleShop papeleria_id user_id p = true) :
    PapeleriaRepository.set_precios_bulk s papeleria_id precios_data user_id =
      ((none, ["La papelería no existe o no tienes permiso."]), s) := by
  have hfind : s.papelerias.find? (visibleShop papeleria_id user_id) = none :=
    List.find?_eq_none.mpr h
  simp [PapeleriaRepository.set_precios_bulk, hfind]

/-- Witness for C10: a soft-deleted shop of the right tenant is invisible to
`set_precios_bulk`; nothing is written and one error message is returned. -/
theorem C10_witness :
    PapeleriaRepository.set_precios_bulk
        ⟨[⟨1, "A", 7, false⟩], [], [], [], [], 2, 1⟩ 1 [("X", .num 5)] 7 =
      ((none, ["La papelería no existe o no tienes permiso."]),
        ⟨[⟨1, "A", 7, false⟩], [], [], [], [], 2, 1⟩) :=
  C10_bulk_prices_invisible_shop ⟨[⟨1, "A", 7, false⟩], [], [], [], [], 2, 1⟩ 1 7
    [("X", .num 5)] (by decide)

/-! ## C5: period-comparative percentage change -/

/-- C5: the percentage-change computation of `get_totales_comparativa` is
100 when the previous value is zero and the current is positive, 0 when the
previous value is zero and the current is not positive, and otherwise
`(current - previous) / previous * 100` rounded to one decimal; on the spec's
boundary examples it gives 100, 0 and 50.0; and the comparative applies it to
the income, cost and profit sums of the current calendar month so far versus
the immediately preceding calendar month. -/
theorem C5_porcentaje_cambio :
    (∀ actual anterior : ℚ, anterior = 0 → 0 < actual →
        PapeleriaRepository.calcular_porcentaje actual anterior = 100) ∧
    (∀ actual anterior : ℚ, anterior = 0 → actual ≤ 0 →
        PapeleriaRepository.calcular_porcentaje actual anterior = 0) ∧
    (∀ actual anterior : ℚ, anterior ≠ 0 →
        PapeleriaRepository.calcular_porcentaje actual anterior =
          round1 ((actual - anterior) / anterior * 100)) ∧
    PapeleriaRepository.calcular_porcentaje 50 0 = 100 ∧
    PapeleriaRepository.calcular_porcentaje 0 0 = 0 ∧
    PapeleriaRepository.calcular_porcentaje 150 100 = 50 ∧
    (∀ s uid hoy,
      (PapeleriaRepository.get_totales_comparativa s uid hoy).ingresos_porcentaje =
        PapeleriaRepository.calcular_porcentaje
          (((PapeleriaRepository.comparativa_rows_actual s uid hoy).map (·.precio)).sum)
          (((PapeleriaRepository.comparativa_rows_anterior s uid hoy).map (·.precio)).sum) ∧
      (PapeleriaRepository.get_totales_comparativa s uid hoy).costos_porcentaje =
        PapeleriaRepository.calcular_porcentaje
          (((PapeleriaRepository.comparativa_rows_actual s uid hoy).map (·.costo)).sum)
          (((PapeleriaRepository.comparativa_rows_anterior s uid hoy).map (·.costo)).sum) ∧
      (PapeleriaRepository.get_totales_comparativa s uid hoy).porcentaje_ganancia =
        PapeleriaRepository.calcular_porcentaje
          (((PapeleriaRepository.comparativa_rows_actual s uid hoy).map (·.precio)).sum -
            ((PapeleriaRepository.comparativa_rows_actual s uid hoy).map (·.costo)).sum)
          (((PapeleriaRepository.comparativa_rows_anterior s uid hoy).map (·.precio)).sum -
            ((PapeleriaRepository.comparativa_rows_anterior s uid hoy).map (·.costo)).sum)) := by
  refine ⟨?_, ?_, ?_, ?_, ?_, ?_, ?_⟩
  · intro actual anterior h0 hpos
    simp [PapeleriaRepository.calcular_porcentaje, h0, hpos]
  · intro actual anterior h0 hnonpos
    have : ¬ actual > 0 := by exact not_lt.mpr hnonpos
    simp [PapeleriaRepository.calcular_porcentaje, h0, this]
  · intro actual anterior hne
    simp [PapeleriaRepository.calcular_porcentaje, hne]
  · norm_num [PapeleriaRepository.calcular_porcentaje]
  · norm_num [PapeleriaRepository.calcular_porcentaje]
  · norm_num [PapeleriaRepository.calcular_porcentaje, round1, pyRound]
  · intro s uid hoy
    exact ⟨rfl, rfl, rfl⟩

/-- Witness for C5: the zero-previous, positive-current case at `(50, 0)`
gives 100. -/
theorem C5_witness : PapeleriaRepository.calcular_porcentaje 50 0 = 100 :=
  C5_porcentaje_cambio.1 50 0 rfl (by norm_num)

/-! ## C4: tenant and active-shop scoping of aggregates -/


/-- Counterexample to C4 as stated: `storeC4A` and `storeC4B` differ only in
one transaction that belongs to a deactivated shop of the requesting tenant,
yet `get_total_general` — one of the aggregates the claim names — counts it,
because that query never joins the shop table and so never applies the
active-shop filter. -/
theorem C4_counterexample :
    storeC4A.joinsActive ⟨1, 1, 1, "X", ⟨2024, 5, 10⟩, 100, 0⟩ = false ∧
    storeC4A = { storeC4B with tramites := [⟨1, 1, 1, "X", ⟨2024, 5, 10⟩, 100, 0⟩] } ∧
    TramiteRepository.get_total_general storeC4A 1 none none ≠
      TramiteRepository.get_total_general storeC4B 1 none none := by
  refine ⟨by decide, rfl, fun h => ?_⟩
  have := congrArg Totales.cuantos h
  revert this
  decide

/-- C4, amended: all three named aggregates ignore transactions of other
tenants, and `get_monthly_summary` — whose query joins through the shop
table — also ignores transactions of deactivated shops; `get_total_general`
and `total_por_papeleria` filter by tenant only, so the active-shop part of
the original claim does not hold for them (see the counterexample). -/
theorem C4_amended_tenant_and_active_scoping (s : Store) (uid : Nat) (t : Tramite) :
    (t.user_id ≠ uid →
      (∀ fi fo, TramiteRepository.get_total_general { s with tramites := t :: s.tramites } uid fi fo =
          TramiteRepository.get_total_general s uid fi fo) ∧
      (∀ pid fi fo,
        PapeleriaRepository.total_por_papeleria { s with tramites := t :: s.tramites } pid uid fi fo =
          PapeleriaRepository.total_por_papeleria s pid uid fi fo) ∧
      (∀ hoy fi fo,
        TramiteRepository.get_monthly_summary { s with tramites := t :: s.tramites } uid hoy fi fo =
          TramiteRepository.get_monthly_summary s uid hoy fi fo)) ∧
    (s.joinsActive t = false →
      ∀ hoy fi fo,
        TramiteRepository.get_monthly_summary { s with tramites := t :: s.tramites } uid hoy fi fo =
          TramiteRepository.get_monthly_summary s uid hoy fi fo) := by
  have hJ : ∀ t2, Store.joinsActive { s with tramites := t :: s.tramites } t2 = s.joinsActive t2 :=
    fun t2 => rfl
  constructor
  · intro hu
    have hu2 : (t.user_id == uid) = false := by simp [hu]
    refine ⟨?_, ?_, ?_⟩
    · intro fi fo
      have hq : TramiteRepository.total_general_query { s with tramites := t :: s.tramites } uid fi fo =
          TramiteRepository.total_general_query s uid fi fo := by
        simp [TramiteRepository.total_general_query, List.filter_cons, hu2]
      simp [TramiteRepository.get_total_general, hq]
    · intro pid fi fo
      have hq : PapeleriaRepository.total_por_papeleria_query { s with tramites := t :: s.tramites }
          pid uid fi fo = PapeleriaRepository.total_por_papeleria_query s pid uid fi fo := by
        simp [PapeleriaRepository.total_por_papeleria_query, List.filter_cons, hu2]
      simp [PapeleriaRepository.total_por_papeleria, hq]
    · intro hoy fi fo
      have hq : ∀ a b, TramiteRepository.monthly_summary_tramites { s with tramites := t :: s.tramites }
          uid a b = TramiteRepository.monthly_summary_tramites s uid a b := by
        intro a b
        simp [TramiteRepository.monthly_summary_tramites, List.filter_cons, hu2, hJ]
      have hg : ∀ a b, TramiteRepository.monthly_summary_gastos { s with tramites := t :: s.tramites }
          uid a b = TramiteRepository.monthly_summary_gastos s uid a b := fun a b => rfl
      simp only [TramiteRepository.get_monthly_summary, hq, hg]
  · intro hact hoy fi fo
    have hq : ∀ a b, TramiteRepository.monthly_summary_tramites { s with tramites := t :: s.tramites }
        uid a b = TramiteRepository.monthly_summary_tramites s uid a b := by
      intro a b
      simp [TramiteRepository.monthly_summary_tramites, List.filter_cons, hJ, hact]
    have hg : ∀ a b, TramiteRepository.monthly_summary_gastos { s with tramites := t :: s.tramites }
        uid a b = TramiteRepository.monthly_summary_gastos s uid a b := fun a b => rfl
    simp only [TramiteRepository.get_monthly_summary, hq, hg]

/-- Witness for C4 (amended): adding another tenant's transaction leaves
tenant 1's grand totals unchanged. -/
theorem C4_witness :
    TramiteRepository.get_total_general
        { storeC4B with tramites := ⟨9, 1, 2, "X", ⟨2024, 5, 10⟩, 5, 1⟩ :: storeC4B.tramites }
        1 none none =
      TramiteRepository.get_total_general storeC4B 1 none none :=
  ((C4_amended_tenant_and_active_scoping storeC4B 1 ⟨9, 1, 2, "X", ⟨2024, 5, 10⟩, 5, 1⟩).1
    (by decide)).1 none none

/-! ## C7: ROI per shop -/

theorem pairwise_desc_mergeSort (l : List (String × ℚ)) :
    List.Pairwise (fun a b => b.2 ≤ a.2) (l.mergeSort (fun a b => decide (b.2 ≤ a.2))) := by
  have h := @List.sorted_mergeSort (String × ℚ) (fun a b => decide (b.2 ≤ a.2))
    (fun a b c hab hbc => by
      simp only [decide_eq_true_eq] at *
      exact le_trans hbc hab)
    (fun a b => by
      simp only [Bool.or_eq_true, decide_eq_true_eq]
      exact le_total b.2 a.2) l
  exact h.imp (fun hab => by simpa using hab)

/-- C7: every row `get_roi_por_papeleria` returns comes from an active shop of
the requesting tenant whose summed transaction cost is strictly positive and
carries `(income - cost) / cost * 100` rounded to one decimal — so a shop
whose total cost is exactly 0 (in particular a transactionless shop) never
contributes a row, whatever its income, and the guarded division never sees a
zero divisor — and the rows are sorted by ROI descending with at most 5 of
them. -/
theorem C7_roi_por_papeleria (s : Store) (user_id : Nat) :
    (∀ e ∈ AnalyticsRepository.get_roi_por_papeleria s user_id,
      ∃ p ∈ s.papelerias, p.user_id = user_id ∧ p.is_active = true ∧
        0 < ((s.tramites.filter (fun t => t.papeleria_id == p.id)).map (·.costo)).sum ∧
        e = (p.nombre,
          round1 ((((s.tramites.filter (fun t => t.papeleria_id == p.id)).map (·.precio)).sum -
              ((s.tramites.filter (fun t => t.papeleria_id == p.id)).map (·.costo)).sum) /
            ((s.tramites.filter (fun t => t.papeleria_id == p.id)).map (·.costo)).sum * 100))) ∧
    List.Pairwise (fun a b => b.2 ≤ a.2) (AnalyticsRepository.get_roi_por_papeleria s user_id) ∧
    (AnalyticsRepository.get_roi_por_papeleria s user_id).length ≤ 5 := by
  refine ⟨?_, ?_, ?_⟩
  · intro e he
    have he2 : e ∈ (AnalyticsRepository.roi_groups s user_id).mergeSort
        AnalyticsRepository.byRoiDesc := List.mem_of_mem_take he
    have he3 : e ∈ AnalyticsRepository.roi_groups s user_id :=
      (List.mergeSort_perm (AnalyticsRepository.roi_groups s user_id)
        AnalyticsRepository.byRoiDesc).mem_iff.mp he2
    rw [AnalyticsRepository.roi_groups, List.mem_filterMap] at he3
    obtain ⟨p, hp, hpe⟩ := he3
    rw [List.mem_filter, Bool.and_eq_true, beq_iff_eq] at hp
    refine ⟨p, hp.1, hp.2.1, hp.2.2, ?_, ?_⟩
    · by_contra hc
      rw [if_neg hc] at hpe
      exact Option.noConfusion hpe
    · by_cases hc : 0 < ((s.tramites.filter (fun t => t.papeleria_id == p.id)).map (·.costo)).sum
      · rw [if_pos hc] at hpe
        exact (Option.some_inj.mp hpe).symm
      · rw [if_neg hc] at hpe
        exact Option.noConfusion hpe
  · exact List.Pairwise.sublist (List.take_sublist 5 _)
      (pairwise_desc_mergeSort (AnalyticsRepository.roi_groups s user_id))
  · simp [AnalyticsRepository.get_roi_por_papeleria]


/-- Witness for C7: on `storeC7` the single returned row is shop "A" with ROI
`(100 - 50) / 50 * 100 = 100`, and it indeed stems from a positive-cost active
shop. -/
theorem C7_witness :
    (("A", (100 : ℚ)) ∈ AnalyticsRepository.get_roi_por_papeleria storeC7 1) ∧
    (∃ p ∈ storeC7.papelerias, p.user_id = 1 ∧ p.is_active = true ∧
      0 < ((storeC7.tramites.filter (fun t => t.papeleria_id == p.id)).map (·.costo)).sum ∧
      ("A", (100 : ℚ)) = (p.nombre,
        round1 ((((storeC7.tramites.filter (fun t => t.papeleria_id == p.id)).map (·.precio)).sum -
            ((storeC7.tramites.filter (fun t => t.papeleria_id == p.id)).map (·.costo)).sum) /
          ((storeC7.tramites.filter (fun t => t.papeleria_id == p.id)).map (·.costo)).sum * 100))) := by
  have hmem : ("A", (100 : ℚ)) ∈ AnalyticsRepository.get_roi_por_papeleria storeC7 1 := by
    norm_num [AnalyticsRepository.get_roi_por_papeleria, AnalyticsRepository.roi_groups, storeC7,
      List.filterMap, List.filter, round1, pyRound, List.mergeSort_singleton]
  exact ⟨hmem, (C7_roi_por_papeleria storeC7 1).1 ("A", 100) hmem⟩

/-! ## C6: top-N by profit -/

/-- Generic shape of a grouped outer join whose `WHERE` clause kills the
null-extended rows: `filterMap` of an if-none-else-some function is `filter`
then `map`. -/
theorem filterMap_ite_none_eq {α β : Type _} (f : α → β) (q : α → Bool) :
    ∀ l : List α,
      l.filterMap (fun x => if q x then none else some (f x)) =
        (l.filter (fun x => !q x)).map f := by
  intro l
  induction l with
  | nil => rfl
  | cons x xs ih =>
      by_cases hx : q x = true
      · simp [List.filterMap_cons, List.filter_cons, hx, ih]
      · simp [List.filterMap_cons, List.filter_cons, hx, ih]


/-- Counterexample to C6 as stated: on `storeC6` the tenant's only shop is
active and has zero matching transactions, yet with an inclusive date filter
supplied `get_top_by_ganancia` returns the empty list instead of listing the
shop with profit 0 — the date predicate sits in the `WHERE` clause and
discards the null-extended row of the outer join.  Without the filter the
shop does appear with 0. -/
theorem C6_counterexample :
    (⟨1, "A", 1, true⟩ : Papeleria) ∈ storeC6.papelerias ∧
    storeC6.tramites = [] ∧
    PapeleriaRepository.get_top_by_ganancia storeC6 1 10
      (some ⟨2024, 1, 1⟩) (some ⟨2024, 12, 31⟩) = [] ∧
    PapeleriaRepository.get_top_by_ganancia storeC6 1 10 none none = [("A", 0)] := by
  refine ⟨by decide, rfl, ?_, ?_⟩
  · simp [PapeleriaRepository.get_top_by_ganancia, PapeleriaRepository.top_groups, storeC6,
      List.filterMap, List.filter, List.mergeSort_nil]
  · simp [PapeleriaRepository.get_top_by_ganancia, PapeleriaRepository.top_groups, storeC6,
      List.filterMap, List.filter, List.mergeSort_singleton]

/-- C6, amended: `get_top_by_ganancia` returns at most `limit` rows (default
10) sorted by profit descending, each drawn from the grouped rows.  Without a
date filter the outer join zero-fills: every active shop of the tenant
contributes a group with `sum(price) - sum(cost)` over its transactions, `0`
if it has none.  With both date bounds supplied, however, exactly the shops
having at least one transaction inside the inclusive range contribute a group
(with the in-range sums): shops with no in-range transaction — in particular
transactionless shops — are omitted, not zero-filled, because the range
predicate is applied in the `WHERE` clause after the outer join. -/
theorem C6_amended_top_by_ganancia (s : Store) (user_id limit : Nat)
    (fecha_inicio fecha_fin : Option Date) (a b : Date) :
    (∀ p ∈ s.papelerias, p.user_id = user_id → p.is_active = true →
      ((p.nombre, ((s.tramites.filter (fun t => t.papeleria_id == p.id)).map (·.precio)).sum -
          ((s.tramites.filter (fun t => t.papeleria_id == p.id)).map (·.costo)).sum) ∈
        PapeleriaRepository.top_groups s user_id none none) ∧
      (s.tramites.filter (fun t => t.papeleria_id == p.id) = [] →
        (p.nombre, (0 : ℚ)) ∈ PapeleriaRepository.top_groups s user_id none none)) ∧
    (PapeleriaRepository.top_groups s user_id (some a) (some b) =
      ((s.papelerias.filter (fun p => p.user_id == user_id && p.is_active)).filter
          (fun p => !((s.tramites.filter (fun t => t.papeleria_id == p.id)).filter
            (fun t => a.ble t.fecha && t.fecha.ble b)).isEmpty)).map
        (fun p =>
          (p.nombre,
            (((s.tramites.filter (fun t => t.papeleria_id == p.id)).filter
                (fun t => a.ble t.fecha && t.fecha.ble b)).map (·.precio)).sum -
              (((s.tramites.filter (fun t => t.papeleria_id == p.id)).filter
                (fun t => a.ble t.fecha && t.fecha.ble b)).map (·.costo)).sum))) ∧
    (∀ e ∈ PapeleriaRepository.get_top_by_ganancia s user_id limit fecha_inicio fecha_fin,
      e ∈ PapeleriaRepository.top_groups s user_id fecha_inicio fecha_fin) ∧
    List.Pairwise (fun x y => y.2 ≤ x.2)
      (PapeleriaRepository.get_top_by_ganancia s user_id limit fecha_inicio fecha_fin) ∧
    (PapeleriaRepository.get_top_by_ganancia s user_id limit fecha_inicio fecha_fin).length ≤
      limit := by
  refine ⟨?_, ?_, ?_, ?_, ?_⟩
  · intro p hp hu ha
    have hpf : p ∈ s.papelerias.filter (fun p => p.user_id == user_id && p.is_active) := by
      rw [List.mem_filter]
      exact ⟨hp, by simp [hu, ha]⟩
    constructor
    · exact List.mem_filterMap.mpr ⟨p, hpf, rfl⟩
    · intro hts
      refine List.mem_filterMap.mpr ⟨p, hpf, ?_⟩
      show some (p.nombre, _) = _
      rw [hts]
      norm_num
  · exact filterMap_ite_none_eq _ _ _
  · intro e he
    have he2 := List.mem_of_mem_take he
    exact (List.mergeSort_perm _ PapeleriaRepository.byGananciaDesc).mem_iff.mp he2
  · exact List.Pairwise.sublist (List.take_sublist limit _)
      (pairwise_desc_mergeSort (PapeleriaRepository.top_groups s user_id fecha_inicio fecha_fin))
  · simp [PapeleriaRepository.get_top_by_ganancia]

/-- Witness for C6 (amended): on `storeC6` without a filter, the
transactionless active shop "A" appears in the grouped rows with profit 0. -/
theorem C6_witness :
    ("A", (0 : ℚ)) ∈ PapeleriaRepository.top_groups storeC6 1 none none :=
  ((C6_amended_top_by_ganancia storeC6 1 10 none none ⟨2024, 1, 1⟩ ⟨2024, 12, 31⟩).1
    ⟨1, "A", 1, true⟩ (List.mem_singleton_self _) rfl rfl).2 rfl

/-! ## C2: bulk price validation and atomic upsert -/

theorem length_filterMap_precioError (data : List (String × PrecioVal)) :
    (data.filterMap precioError).length = (data.filter precioBad).length := by
  induction data with
  | nil => rfl
  | cons e es ih =>
      obtain ⟨tr, v⟩ := e
      cases v with
      | blank => simpa [List.filterMap_cons, List.filter_cons, precioError, precioBad] using ih
      | invalid raw =>
          simpa [List.filterMap_cons, List.filter_cons, precioError, precioBad] using ih
      | num q =>
          by_cases hq : q < 0
          · simpa [List.filterMap_cons, List.filter_cons, precioError, precioBad, hq] using ih
          · simpa [List.filterMap_cons, List.filter_cons, precioError, precioBad, hq] using ih

/-- Rows keep their identity through one filter-respecting map: a map that
either fixes an element or moves it entirely outside the filtered set leaves
the filtered sublist unchanged. -/
theorem filter_map_invariant {α : Type _} (p : α → Bool) (f : α → α) :
    ∀ l : List α, (∀ x ∈ l, f x = x ∨ (p x = false ∧ p (f x) = false)) →
      (l.map f).filter p = l.filter p := by
  intro l
  induction l with
  | nil => intro _; rfl
  | cons x xs ih =>
      intro h
      have htail := ih (fun y hy => h y (List.mem_cons_of_mem x hy))
      rcases h x (List.mem_cons_self x xs) with hfix | ⟨hpx, hpfx⟩
      · simp [List.filter_cons, hfix, htail]
      · simp [List.filter_cons, hpx, hpfx, htail]

theorem bulkFold_filter_unchanged (pre : List PapeleriaPrecio) (pid next : Nat)
    (hpre_lt : ∀ r ∈ pre, r.id < next) (tr : String) :
    ∀ (entries : List (String × ℚ)) (acc : List PapeleriaPrecio × Nat),
      (∀ e ∈ entries, e.1 ≠ tr) →
      (∀ r ∈ acc.1, ∀ r₀ ∈ pre, r.id = r₀.id → r.tramite = r₀.tramite) →
      next ≤ acc.2 →
      (entries.foldl (PapeleriaRepository.bulkStep pre pid) acc).1.filter (precioKey pid tr) =
        acc.1.filter (precioKey pid tr) := by
  intro entries
  induction entries with
  | nil => intro acc _ _ _; rfl
  | cons e es ih =>
      intro acc hne hgood hnext
      rw [List.foldl_cons]
      have hne2 : e.1 ≠ tr := hne e (List.mem_cons_self e es)
      have hnees : ∀ x ∈ es, x.1 ≠ tr := fun x hx => hne x (List.mem_cons_of_mem e hx)
      rw [PapeleriaRepository.bulkStep]
      cases hlast : (pre.filter (precioKey pid e.1)).getLast? with
      | some row =>
          have hrowmem : row ∈ pre.filter (precioKey pid e.1) :=
            List.mem_of_getLast?_eq_some hlast
          rw [List.mem_filter] at hrowmem
          have hrowtr : row.tramite = e.1 := by
            have := hrowmem.2
            simp [precioKey] at this
            exact this.2
          have hstep : ∀ x ∈ acc.1,
              (if x.id == row.id then { x with precio := e.2 } else x) = x ∨
                (precioKey pid tr x = false ∧
                  precioKey pid tr (if x.id == row.id then { x with precio := e.2 } else x) =
                    false) := by
            intro x hx
            by_cases hid : x.id = row.id
            · right
              have hxtr : x.tramite = row.tramite := hgood x hx row hrowmem.1 hid
              have hxtr2 : x.tramite ≠ tr := by rw [hxtr, hrowtr]; exact hne2
              constructor
              · simp [precioKey, hxtr2]
              · simp [hid, precioKey, hxtr2]
            · left
              simp [hid]
          refine Eq.trans (ih _ hnees ?_ ?_) ?_
          · intro r hr r₀ hr₀ hid
            simp only at hr
            rw [List.mem_map] at hr
            obtain ⟨x, hx, hxr⟩ := hr
            have hrid : r.id = x.id := by
              subst hxr
              by_cases hxid : x.id = row.id
              · simp [hxid]
              · simp [hxid]
            have hrtr : r.tramite = x.tramite := by
              subst hxr
              by_cases hxid : x.id = row.id
              · simp [hxid]
              · simp [hxid]
            rw [hrtr]
            exact hgood x hx r₀ hr₀ (hrid.symm.trans hid)
          · simpa using hnext
          · exact filter_map_invariant _ _ acc.1 hstep
      | none =>
          refine Eq.trans (ih _ hnees ?_ ?_) ?_
          · intro r hr r₀ hr₀ hid
            simp only at hr
            rw [List.mem_append] at hr
            rcases hr with hr | hr
            · exact hgood r hr r₀ hr₀ hid
            · rw [List.mem_singleton] at hr
              subst hr
              simp only at hid
              have := hpre_lt r₀ hr₀
              omega
          · simp only
            omega
          · simp only [List.filter_append]
            have : precioKey pid tr ⟨acc.2, pid, e.1, e.2⟩ = false := by
              simp [precioKey, hne2]
            simp [List.filter_cons, this]

/-- C2: on a visible (active, owned) shop, bulk price setting produces exactly
one validation error per non-blank entry that is unparsable or negative
(collected across the whole map, not stopping at the first); if any error
exists the call returns the full error list and leaves the store untouched;
on success the full valid-price map is returned and keys outside it — in
particular blank entries — have their price rows untouched (so a blank is not
written as zero); and a price of exactly 0 passes validation and is kept. -/
theorem C2_bulk_price_validation (s : Store) (pid uid : Nat)
    (data : List (String × PrecioVal))
    (hvis : (s.papelerias.find? (visibleShop pid uid)).isSome = true) :
    (data.filterMap precioError).length = (data.filter precioBad).length ∧
    (data.filterMap precioError ≠ [] →
      PapeleriaRepository.set_precios_bulk s pid data uid =
        ((none, data.filterMap precioError), s)) ∧
    (data.filterMap precioError = [] →
      (PapeleriaRepository.set_precios_bulk s pid data uid).1 =
        (some (data.filterMap precioValid), []) ∧
      (PreciosWF s → ∀ tr : String, tr ∉ (data.filterMap precioValid).map Prod.fst →
        (PapeleriaRepository.set_precios_bulk s pid data uid).2.precios.filter
            (precioKey pid tr) =
          s.precios.filter (precioKey pid tr))) ∧
    (∀ tr : String, precioError (tr, .num 0) = none ∧ precioBad (tr, .num 0) = false ∧
      ((tr, .num 0) ∈ data → (tr, (0 : ℚ)) ∈ data.filterMap precioValid)) := by
  refine ⟨length_filterMap_precioError data, ?_, ?_, ?_⟩
  · intro h
    have hne : ¬ ((data.filterMap precioError).isEmpty = true) := by
      rw [List.isEmpty_iff]
      exact h
    simp [PapeleriaRepository.set_precios_bulk, hvis, hne]
  · intro h
    have hemp : (data.filterMap precioError).isEmpty = true := by
      rw [List.isEmpty_iff]
      exact h
    constructor
    · simp [PapeleriaRepository.set_precios_bulk, hvis, hemp]
    · intro hwf tr htr
      have hred : (PapeleriaRepository.set_precios_bulk s pid data uid).2.precios =
          ((data.filterMap precioValid).foldl
            (PapeleriaRepository.bulkStep
              (s.precios.filter (fun r => r.papeleria_id == pid)) pid)
            (s.precios, s.next_precio_id)).1 := by
        simp [PapeleriaRepository.set_precios_bulk, hvis, hemp]
      rw [hred]
      refine bulkFold_filter_unchanged _ pid s.next_precio_id ?_ tr _ _ ?_ ?_ ?_
      · intro r hr
        exact hwf.ids_lt r (List.mem_filter.mp hr).1
      · intro e he hetr
        exact htr (hetr ▸ List.mem_map_of_mem Prod.fst he)
      · intro r hr r₀ hr₀ hid
        have hr₀2 : r₀ ∈ s.precios := (List.mem_filter.mp hr₀).1
        have := List.inj_on_of_nodup_map hwf.nodup_ids hr hr₀2 hid
        rw [this]
      · exact le_refl _
  · intro tr
    refine ⟨by norm_num [precioError], by norm_num [precioBad], ?_⟩
    intro h
    exact List.mem_filterMap.mpr ⟨(tr, .num 0), h, by norm_num [precioValid]⟩

/-- Witness for C2: the spec's example map — a valid "A", a negative "B", an
unparsable "C" — yields exactly the two error messages and commits nothing. -/
theorem C2_witness :
    PapeleriaRepository.set_precios_bulk storeC9 1
        [("A", .num 10), ("B", .num (-5)), ("C", .invalid "abc")] 7 =
      ((none, ["El precio para 'B' no puede ser negativo.",
               "El precio para 'C' ('abc') no es un número válido."]), storeC9) := by
  have h := (C2_bulk_price_validation storeC9 1 7
    [("A", .num 10), ("B", .num (-5)), ("C", .invalid "abc")] (by decide)).2.1 (by decide)
  rw [h]
  rfl

/-! ## C9: idempotence of the price upsert -/

theorem pre_filter_key (s : Store) (pid : Nat) (tr : String) :
    (s.precios.filter (fun r => r.papeleria_id == pid)).filter (precioKey pid tr) =
      s.precios.filter (precioKey pid tr) := by
  rw [List.filter_filter]
  refine List.filter_congr ?_
  intro a _
  cases hpap : (a.papeleria_id == pid) <;> simp [precioKey, hpap]

theorem precios_nodup (s : Store) (hwf : PreciosWF s) : s.precios.Nodup :=
  List.Nodup.of_map (·.id) hwf.nodup_ids

/-- Under the upsert well-formedness invariant, the rows carrying one
`(papeleria_id, tramite)` key form at most a singleton. -/
theorem filter_key_eq_singleton (s : Store) (hwf : PreciosWF s) (pid : Nat) (tr : String)
    {row : PapeleriaPrecio} (hrow : row ∈ s.precios.filter (precioKey pid tr)) :
    s.precios.filter (precioKey pid tr) = [row] := by
  refine eq_singleton_of_mem_of_unique ((precios_nodup s hwf).filter _) ?_ hrow
  intro x hx y hy
  rw [List.mem_filter] at hx hy
  have hxk := hx.2
  have hyk := hy.2
  simp only [precioKey, Bool.and_eq_true, beq_iff_eq] at hxk hyk
  exact hwf.unique_key x hx.1 y hy.1 (hxk.1.trans hyk.1.symm) (hxk.2.trans hyk.2.symm)

/-- Reduction of `set_precios_bulk` on a single valid entry. -/
theorem set_precios_bulk_single (s : Store) (pid uid : Nat) (tr : String) (q : ℚ)
    (hvis : (s.papelerias.find? (visibleShop pid uid)).isSome = true) (hq : ¬ q < 0) :
    PapeleriaRepository.set_precios_bulk s pid [(tr, .num q)] uid =
      ((some [(tr, q)], []),
        { s with
            precios := (PapeleriaRepository.bulkStep
              (s.precios.filter (fun r => r.papeleria_id == pid)) pid
              (s.precios, s.next_precio_id) (tr, q)).1,
            next_precio_id := (PapeleriaRepository.bulkStep
              (s.precios.filter (fun r => r.papeleria_id == pid)) pid
              (s.precios, s.next_precio_id) (tr, q)).2 }) := by
  simp [PapeleriaRepository.set_precios_bulk, hvis, precioError, precioValid, hq,
    List.filterMap_cons]

/-- Reduction of `bulkStep` when the key already has a row: update that row in place. -/
theorem bulkStep_update (pre : List PapeleriaPrecio) (pid : Nat)
    (acc : List PapeleriaPrecio × Nat) (e : String × ℚ) (row : PapeleriaPrecio)
    (h : (pre.filter (precioKey pid e.1)).getLast? = some row) :
    PapeleriaRepository.bulkStep pre pid acc e =
      (acc.1.map (fun r => if r.id == row.id then { r with precio := e.2 } else r), acc.2) := by
  unfold PapeleriaRepository.bulkStep
  rw [h]

/-- Reduction of `bulkStep` when the key has no row yet: insert a fresh one. -/
theorem bulkStep_insert (pre : List PapeleriaPrecio) (pid : Nat)
    (acc : List PapeleriaPrecio × Nat) (e : String × ℚ)
    (h : (pre.filter (precioKey pid e.1)).getLast? = none) :
    PapeleriaRepository.bulkStep pre pid acc e =
      (acc.1 ++ [⟨acc.2, pid, e.1, e.2⟩], acc.2 + 1) := by
  unfold PapeleriaRepository.bulkStep
  rw [h]

/-- C9: submitting the same valid price twice for the same shop and type is
idempotent — the second call changes no price row (it updates the one row in
place with the value it already has), and after both calls exactly one row
carries the `(shop, type)` key, holding the submitted value. -/
theorem C9_set_precios_bulk_idempotent (s : Store) (pid uid : Nat) (tr : String) (q : ℚ)
    (hwf : PreciosWF s) (hvis : (s.papelerias.find? (visibleShop pid uid)).isSome = true)
    (hq : ¬ q < 0) :
    ((PapeleriaRepository.set_precios_bulk
        (PapeleriaRepository.set_precios_bulk s pid [(tr, .num q)] uid).2
        pid [(tr, .num q)] uid).2.precios =
      (PapeleriaRepository.set_precios_bulk s pid [(tr, .num q)] uid).2.precios) ∧
    (((PapeleriaRepository.set_precios_bulk s pid [(tr, .num q)] uid).2.precios.filter
        (precioKey pid tr)).map (·.precio) = [q]) ∧
    (((PapeleriaRepository.set_precios_bulk s pid [(tr, .num q)] uid).2.precios.filter
        (precioKey pid tr)).length = 1) := by
  have h1 := set_precios_bulk_single s pid uid tr q hvis hq
  set s1 := (PapeleriaRepository.set_precios_bulk s pid [(tr, .num q)] uid).2 with hs1
  have hvis1 : (s1.papelerias.find? (visibleShop pid uid)).isSome = true := by
    rw [hs1, h1]
    exact hvis
  have h2 := set_precios_bulk_single s1 pid uid tr q hvis1 hq
  cases hlast : ((s.precios.filter (fun r => r.papeleria_id == pid)).filter
      (precioKey pid tr)).getLast? with
  | some row =>
      have hrowF : row ∈ s.precios.filter (precioKey pid tr) := by
        rw [← pre_filter_key s pid tr]
        exact List.mem_of_getLast?_eq_some hlast
      have hFsing : s.precios.filter (precioKey pid tr) = [row] :=
        filter_key_eq_singleton s hwf pid tr hrowF
      have hrowmem : row ∈ s.precios := (List.mem_filter.mp hrowF).1
      have hstep1 : s1.precios =
          s.precios.map (fun r => if r.id == row.id then { r with precio := q } else r) := by
        rw [hs1, h1]
        simp only
        rw [bulkStep_update _ _ _ _ row hlast]
      have hkeep : ∀ r ∈ s.precios,
          precioKey pid tr (if r.id == row.id then { r with precio := q } else r) =
            precioKey pid tr r := by
        intro r _
        by_cases hid : r.id = row.id
        · simp [hid, precioKey]
        · simp [hid]
      have hfilter1 : s1.precios.filter (precioKey pid tr) = [{ row with precio := q }] := by
        rw [hstep1, List.filter_map]
        have heq : s.precios.filter
            ((precioKey pid tr) ∘ (fun r => if r.id == row.id then { r with precio := q } else r)) =
            s.precios.filter (precioKey pid tr) :=
          List.filter_congr (fun x hx => hkeep x hx)
        rw [heq, hFsing]
        simp
      have hlast1 : ((s1.precios.filter (fun r => r.papeleria_id == pid)).filter
          (precioKey pid tr)).getLast? = some { row with precio := q } := by
        rw [pre_filter_key s1 pid tr, hfilter1]
        rfl
      refine ⟨?_, ?_, ?_⟩
      · rw [h2]
        simp only
        rw [bulkStep_update _ _ _ _ _ hlast1]
        simp only
        have hfun : ∀ r ∈ s1.precios,
            (if r.id == ({ row with precio := q } : PapeleriaPrecio).id then
              { r with precio := q } else r) = id r := by
          intro r hr
          rw [hstep1] at hr
          rw [List.mem_map] at hr
          obtain ⟨x, hx, hxr⟩ := hr
          by_cases hid : x.id = row.id
          · have hxrow : x = row := List.inj_on_of_nodup_map hwf.nodup_ids hx hrowmem hid
            subst hxrow
            subst hxr
            simp
          · subst hxr
            simp [hid]
        exact (List.map_congr_left hfun).trans (List.map_id s1.precios)
      · rw [hfilter1]
        rfl
      · rw [hfilter1]
        rfl
  | none =>
      have hF : s.precios.filter (precioKey pid tr) = [] := by
        rw [← pre_filter_key s pid tr]
        exact List.getLast?_eq_none_iff.mp hlast
      have hstep1 : s1.precios = s.precios ++ [⟨s.next_precio_id, pid, tr, q⟩] := by
        rw [hs1, h1]
        simp only
        rw [bulkStep_insert _ _ _ _ hlast]
      have hfilter1 : s1.precios.filter (precioKey pid tr) =
          [⟨s.next_precio_id, pid, tr, q⟩] := by
        rw [hstep1, List.filter_append, hF]
        simp [precioKey]
      have hlast1 : ((s1.precios.filter (fun r => r.papeleria_id == pid)).filter
          (precioKey pid tr)).getLast? = some ⟨s.next_precio_id, pid, tr, q⟩ := by
        rw [pre_filter_key s1 pid tr, hfilter1]
        rfl
      refine ⟨?_, ?_, ?_⟩
      · rw [h2]
        simp only
        rw [bulkStep_update _ _ _ _ _ hlast1]
        simp only
        have hfun : ∀ r ∈ s1.precios,
            (if r.id == (⟨s.next_precio_id, pid, tr, q⟩ : PapeleriaPrecio).id then
              { r with precio := q } else r) = id r := by
          intro r hr
          rw [hstep1] at hr
          rw [List.mem_append] at hr
          rcases hr with hr | hr
          · have := hwf.ids_lt r hr
            have hne : r.id ≠ s.next_precio_id := by omega
            simp [hne]
          · rw [List.mem_singleton] at hr
            subst hr
            simp
        exact (List.map_congr_left hfun).trans (List.map_id s1.precios)
      · rw [hfilter1]
        rfl
      · rw [hfilter1]
        rfl

/-- Witness for C9: setting price 10 for type "X" twice on `storeC9` leaves a
single `(shop 1, "X")` row holding 10, and the second call changes nothing. -/
theorem C9_witness :
    ((PapeleriaRepository.set_precios_bulk
        (PapeleriaRepository.set_precios_bulk storeC9 1 [("X", .num 10)] 7).2
        1 [("X", .num 10)] 7).2.precios =
      (PapeleriaRepository.set_precios_bulk storeC9 1 [("X", .num 10)] 7).2.precios) ∧
    (((PapeleriaRepository.set_precios_bulk storeC9 1 [("X", .num 10)] 7).2.precios.filter
        (precioKey 1 "X")).map (·.precio) = [10]) ∧
    (((PapeleriaRepository.set_precios_bulk storeC9 1 [("X", .num 10)] 7).2.precios.filter
        (precioKey 1 "X")).length = 1) :=
  C9_set_precios_bulk_idempotent storeC9 1 7 "X" 10
    ⟨List.nodup_nil, by simp [storeC9], by simp [storeC9]⟩ (by decide) (by norm_num)

/-! ## C3: shop add three-way branch and soft-delete round trip -/

/-- C3: `add` branches three ways on the `(tenant, trimmed-uppercased name)`
pair — an active duplicate fails with the duplicate error and touches
nothing (no store is committed on the error path); else an inactive duplicate
is reactivated and returned as the same row; else a fresh active row is
created — and consequently, starting from a well-formed store holding no shop
with that normalized name for the tenant, `add; delete; add` leaves exactly
one row for that name, active, with the id the first `add` created. -/
theorem C3_add_delete_add_round_trip (s : Store) (nombre : String) (uid : Nat) :
    (∀ pdup, s.papelerias.find?
        (fun p => p.nombre == normalizeNombre nombre && p.user_id == uid && p.is_active) =
          some pdup →
      PapeleriaRepository.add s nombre uid =
        .error ("La papelería '" ++ nombre ++ "' ya existe y está activa.")) ∧
    (∀ pin, s.papelerias.find?
        (fun p => p.nombre == normalizeNombre nombre && p.user_id == uid && p.is_active) =
          none →
      s.papelerias.find?
        (fun p => p.nombre == normalizeNombre nombre && p.user_id == uid && !p.is_active) =
          some pin →
      PapeleriaRepository.add s nombre uid =
        .ok ({ pin with is_active := true },
          { s with papelerias :=
              s.papelerias.map (fun r => if r.id == pin.id then { r with is_active := true } else r) })) ∧
    (s.papelerias.find?
        (fun p => p.nombre == normalizeNombre nombre && p.user_id == uid && p.is_active) =
          none →
      s.papelerias.find?
        (fun p => p.nombre == normalizeNombre nombre && p.user_id == uid && !p.is_active) =
          none →
      PapeleriaRepository.add s nombre uid =
        .ok (⟨s.next_papeleria_id, normalizeNombre nombre, uid, true⟩,
          { s with
              papelerias :=
                s.papelerias ++ [⟨s.next_papeleria_id, normalizeNombre nombre, uid, true⟩],
              next_papeleria_id := s.next_papeleria_id + 1 })) ∧
    (PapeleriasWF s →
      (∀ p ∈ s.papelerias, ¬(p.nombre = normalizeNombre nombre ∧ p.user_id = uid)) →
      ∃ p1 s1, PapeleriaRepository.add s nombre uid = .ok (p1, s1) ∧
        p1 = ⟨s.next_papeleria_id, normalizeNombre nombre, uid, true⟩ ∧
        ∃ p3 s3,
          PapeleriaRepository.add (PapeleriaRepository.delete s1 p1.id uid) nombre uid =
            .ok (p3, s3) ∧
          p3 = p1 ∧ p1.is_active = true ∧
          s3.papelerias.filter
              (fun p => p.nombre == normalizeNombre nombre && p.user_id == uid) = [p1]) := by
  refine ⟨?_, ?_, ?_, ?_⟩
  · intro pdup hdup
    simp [PapeleriaRepository.add, hdup]
  · intro pin hact hina
    simp [PapeleriaRepository.add, hact, hina]
  · intro hact hina
    simp [PapeleriaRepository.add, hact, hina]
  · intro hwf habs
    have hpredA : ∀ p ∈ s.papelerias,
        ¬((p.nombre == normalizeNombre nombre && p.user_id == uid && p.is_active) = true) := by
      intro p hp hpred
      simp only [Bool.and_eq_true, beq_iff_eq] at hpred
      exact habs p hp ⟨hpred.1.1, hpred.1.2⟩
    have hpredI : ∀ p ∈ s.papelerias,
        ¬((p.nombre == normalizeNombre nombre && p.user_id == uid && !p.is_active) = true) := by
      intro p hp hpred
      simp only [Bool.and_eq_true, beq_iff_eq] at hpred
      exact habs p hp ⟨hpred.1.1, hpred.1.2⟩
    have hact : s.papelerias.find?
        (fun p => p.nombre == normalizeNombre nombre && p.user_id == uid && p.is_active) = none :=
      List.find?_eq_none.mpr hpredA
    have hina : s.papelerias.find?
        (fun p => p.nombre == normalizeNombre nombre && p.user_id == uid && !p.is_active) =
          none := List.find?_eq_none.mpr hpredI
    set p1 : Papeleria := ⟨s.next_papeleria_id, normalizeNombre nombre, uid, true⟩ with hp1
    have hadd1 : PapeleriaRepository.add s nombre uid =
        .ok (p1, { s with papelerias := s.papelerias ++ [p1],
                          next_papeleria_id := s.next_papeleria_id + 1 }) := by
      simp [PapeleriaRepository.add, hact, hina, hp1]
    set s1 : Store := { s with papelerias := s.papelerias ++ [p1],
                               next_papeleria_id := s.next_papeleria_id + 1 } with hs1def
    refine ⟨p1, s1, hadd1, rfl, ?_⟩
    -- the delete step finds p1 and deactivates exactly it
    have hfind_del : s1.papelerias.find? (visibleShop p1.id uid) = some p1 := by
      rw [hs1def]
      simp only
      rw [List.find?_append]
      have hleft : s.papelerias.find? (visibleShop p1.id uid) = none := by
        refine List.find?_eq_none.mpr ?_
        intro p hp hpred
        have hlt := hwf.ids_lt p hp
        simp only [visibleShop, Bool.and_eq_true, beq_iff_eq] at hpred
        omega
      rw [hleft]
      simp [visibleShop, hp1]
    set p1d : Papeleria := ⟨s.next_papeleria_id, normalizeNombre nombre, uid, false⟩ with hp1d
    have hdel : (PapeleriaRepository.delete s1 p1.id uid).papelerias =
        s.papelerias ++ [p1d] := by
      unfold PapeleriaRepository.delete
      rw [hfind_del]
      simp only
      rw [List.map_append]
      have hmapl : s.papelerias.map
          (fun r => if r.id == p1.id then { r with is_active := false } else r) =
            s.papelerias := by
        refine Eq.trans (List.map_congr_left ?_) (List.map_id s.papelerias)
        intro p hp
        have hlt := hwf.ids_lt p hp
        have hne : p.id ≠ p1.id := by rw [hp1]; simp only; omega
        simp [hne]
      rw [hmapl]
      simp [hp1, hp1d]
    set s2 := PapeleriaRepository.delete s1 p1.id uid with hs2def
    -- the second add reactivates p1d
    have hact2 : s2.papelerias.find?
        (fun p => p.nombre == normalizeNombre nombre && p.user_id == uid && p.is_active) =
          none := by
      rw [hdel, List.find?_append, List.find?_eq_none.mpr hpredA]
      simp [hp1d]
    have hina2 : s2.papelerias.find?
        (fun p => p.nombre == normalizeNombre nombre && p.user_id == uid && !p.is_active) =
          some p1d := by
      rw [hdel, List.find?_append, List.find?_eq_none.mpr hpredI]
      simp [hp1d]
    have hadd2 : PapeleriaRepository.add s2 nombre uid =
        .ok ({ p1d with is_active := true },
          { s2 with papelerias :=
              s2.papelerias.map (fun r => if r.id == p1d.id then { r with is_active := true } else r) }) := by
      simp [PapeleriaRepository.add, hact2, hina2]
    refine ⟨{ p1d with is_active := true },
      { s2 with papelerias :=
          s2.papelerias.map (fun r => if r.id == p1d.id then { r with is_active := true } else r) },
      hadd2, by rw [hp1d, hp1], by rw [hp1], ?_⟩
    have hmap2 : s2.papelerias.map
        (fun r => if r.id == p1d.id then { r with is_active := true } else r) =
          s.papelerias ++ [p1] := by
      rw [hdel, List.map_append]
      have hmapl : s.papelerias.map
          (fun r => if r.id == p1d.id then { r with is_active := true } else r) =
            s.papelerias := by
        refine Eq.trans (List.map_congr_left ?_) (List.map_id s.papelerias)
        intro p hp
        have hlt := hwf.ids_lt p hp
        have hne : p.id ≠ p1d.id := by rw [hp1d]; simp only; omega
        simp [hne]
      rw [hmapl]
      simp [hp1d, hp1]
    simp only [hmap2]
    rw [List.filter_append]
    have hfl : s.papelerias.filter
        (fun p => p.nombre == normalizeNombre nombre && p.user_id == uid) = [] := by
      refine List.filter_eq_nil_iff.mpr ?_
      intro p hp hpred
      simp only [Bool.and_eq_true, beq_iff_eq] at hpred
      exact habs p hp ⟨hpred.1, hpred.2⟩
    rw [hfl]
    simp [hp1]

/-- Witness for C3: on the empty store, `add " tienda x "; delete; add`
reactivates the original row: one row, active, same id. -/
theorem C3_witness :
    ∃ p1 s1, PapeleriaRepository.add storeEmpty " tienda x " 3 = .ok (p1, s1) ∧
      p1 = ⟨storeEmpty.next_papeleria_id, normalizeNombre " tienda x ", 3, true⟩ ∧
      ∃ p3 s3,
        PapeleriaRepository.add (PapeleriaRepository.delete s1 p1.id 3) " tienda x " 3 =
          .ok (p3, s3) ∧
        p3 = p1 ∧ p1.is_active = true ∧
        s3.papelerias.filter
            (fun p => p.nombre == normalizeNombre " tienda x " && p.user_id == 3) = [p1] :=
  (C3_add_delete_add_round_trip storeEmpty " tienda x " 3).2.2.2
    ⟨by simp [storeEmpty], by simp [storeEmpty]⟩ (by simp [storeEmpty])

/-! ## C1: monthly summary -/

/-- Lemma: `get_monthly_summary` satisfies `MonthlySpec` on whatever window it
computes. -/
theorem monthly_summary_meets_spec (s : Store) (uid : Nat) (hoy : Date)
    (fi fo : Option Date) :
    MonthlySpec s uid (TramiteRepository.monthly_summary_window hoy fi fo).1
      (TramiteRepository.monthly_summary_window hoy fi fo).2
      (TramiteRepository.get_monthly_summary s uid hoy fi fo) := by
  set w := TramiteRepository.monthly_summary_window hoy fi fo with hw
  have hdata : (TramiteRepository.get_monthly_summary s uid hoy fi fo).monthly_data =
      (monthsLoop (w.2.monthIdx) (w.1.monthIdx)).map (fun m =>
        { month := m,
          ingresos := (((TramiteRepository.monthly_summary_tramites s uid w.1 w.2).filter
              (fun t => t.fecha.monthIdx == m)).map (·.precio)).sum,
          gastos := (((TramiteRepository.monthly_summary_tramites s uid w.1 w.2).filter
              (fun t => t.fecha.monthIdx == m)).map (·.costo)).sum +
            (((TramiteRepository.monthly_summary_gastos s uid w.1 w.2).filter
              (fun g => g.fecha.monthIdx == m)).map (·.monto)).sum,
          ganancias := (((TramiteRepository.monthly_summary_tramites s uid w.1 w.2).filter
              (fun t => t.fecha.monthIdx == m)).map (·.precio)).sum -
            ((((TramiteRepository.monthly_summary_tramites s uid w.1 w.2).filter
              (fun t => t.fecha.monthIdx == m)).map (·.costo)).sum +
              (((TramiteRepository.monthly_summary_gastos s uid w.1 w.2).filter
                (fun g => g.fecha.monthIdx == m)).map (·.monto)).sum) : MonthRow }) := rfl
  have hmonths : monthsLoop (w.2.monthIdx) (w.1.monthIdx) =
      (List.range (w.2.monthIdx + 1 - w.1.monthIdx)).map (w.1.monthIdx + ·) :=
    monthsLoop_eq_range _ _ _ rfl
  refine ⟨?_, ?_, ?_, ?_, rfl, rfl, rfl⟩
  · rw [hdata, hmonths]
    simp
  · intro k hk
    simp only [hdata, hmonths, List.get_eq_getElem, List.getElem_map, List.length_map,
      List.length_range, List.getElem_range]
  · intro row hrow
    rw [hdata] at hrow
    rw [List.mem_map] at hrow
    obtain ⟨m, _, rfl⟩ := hrow
    exact ⟨rfl, rfl, rfl⟩
  · intro row hrow hnoT hnoG
    rw [hdata] at hrow
    rw [List.mem_map] at hrow
    obtain ⟨m, _, rfl⟩ := hrow
    have hTnil : (TramiteRepository.monthly_summary_tramites s uid w.1 w.2).filter
        (fun t => t.fecha.monthIdx == m) = [] := by
      refine List.filter_eq_nil_iff.mpr ?_
      intro t ht
      have := hnoT t ht
      simpa using this
    have hGnil : (TramiteRepository.monthly_summary_gastos s uid w.1 w.2).filter
        (fun g => g.fecha.monthIdx == m) = [] := by
      refine List.filter_eq_nil_iff.mpr ?_
      intro g hg
      have := hnoG g hg
      simpa using this
    refine ⟨?_, ?_, ?_⟩
    · show (((TramiteRepository.monthly_summary_tramites s uid w.1 w.2).filter
        (fun t => t.fecha.monthIdx == m)).map (·.precio)).sum = 0
      rw [hTnil]
      rfl
    · show (((TramiteRepository.monthly_summary_tramites s uid w.1 w.2).filter
        (fun t => t.fecha.monthIdx == m)).map (·.costo)).sum +
        (((TramiteRepository.monthly_summary_gastos s uid w.1 w.2).filter
          (fun g => g.fecha.monthIdx == m)).map (·.monto)).sum = 0
      rw [hTnil, hGnil]
      norm_num
    · show (((TramiteRepository.monthly_summary_tramites s uid w.1 w.2).filter
        (fun t => t.fecha.monthIdx == m)).map (·.precio)).sum -
        ((((TramiteRepository.monthly_summary_tramites s uid w.1 w.2).filter
          (fun t => t.fecha.monthIdx == m)).map (·.costo)).sum +
          (((TramiteRepository.monthly_summary_gastos s uid w.1 w.2).filter
            (fun g => g.fecha.monthIdx == m)).map (·.monto)).sum) = 0
      rw [hTnil, hGnil]
      norm_num

/-- C1: for an explicit range (with well-formed dates, start not after end)
the monthly summary windows from the first of the start month through the end
date and meets `MonthlySpec`: one entry per calendar month, contiguous, of
length `monthsBetween(start, end) + 1`; per-month income/expense equal to the
sums of the matching transaction prices/costs plus standalone expense amounts
(matching = in the query's inclusive date window, the tenant's rows, joined to
active shops for transactions); months without matching rows zero-filled; and
totals the plain sums.  For the default call the window is the trailing 12
months ending at `date.today()`, and the summary has exactly 12 entries. -/
theorem C1_get_monthly_summary (s : Store) (user_id : Nat) (hoy a b : Date) :
    (a.Valid → b.Valid → a.ble b = true →
      MonthlySpec s user_id ⟨a.y, a.m, 1⟩ b
        (TramiteRepository.get_monthly_summary s user_id hoy (some a) (some b)) ∧
      (TramiteRepository.get_monthly_summary s user_id hoy
          (some a) (some b)).monthly_data.length = (b.monthIdx - a.monthIdx) + 1) ∧
    (11 ≤ hoy.monthIdx →
      MonthlySpec s user_id (monthIdxToDate (hoy.monthIdx - 11)) hoy
        (TramiteRepository.get_monthly_summary s user_id hoy none none) ∧
      (TramiteRepository.get_monthly_summary s user_id hoy none none).monthly_data.length =
        12) := by
  constructor
  · intro hva hvb hab
    have h := monthly_summary_meets_spec s user_id hoy (some a) (some b)
    refine ⟨h, ?_⟩
    have h1 := h.1
    have hw1 : (TramiteRepository.monthly_summary_window hoy (some a) (some b)).1.monthIdx =
        a.monthIdx := rfl
    have hw2 : (TramiteRepository.monthly_summary_window hoy (some a) (some b)).2.monthIdx =
        b.monthIdx := rfl
    have hle : a.monthIdx ≤ b.monthIdx := Date.monthIdx_le_of_ble hva hvb hab
    rw [hw1, hw2] at h1
    omega
  · intro h11
    have h := monthly_summary_meets_spec s user_id hoy none none
    refine ⟨h, ?_⟩
    have h1 := h.1
    have hw1 : (TramiteRepository.monthly_summary_window hoy none none).1.monthIdx =
        hoy.monthIdx - 11 := monthIdx_monthIdxToDate _
    have hw2 : (TramiteRepository.monthly_summary_window hoy none none).2.monthIdx =
        hoy.monthIdx := rfl
    rw [hw1, hw2] at h1
    omega

/-- Witness for C1: a three-month range over the empty store yields a
three-entry, zero-filled summary. -/
theorem C1_witness :
    MonthlySpec storeEmpty 1 ⟨2024, 3, 1⟩ ⟨2024, 5, 10⟩
      (TramiteRepository.get_monthly_summary storeEmpty 1 ⟨2024, 6, 2⟩
        (some ⟨2024, 3, 15⟩) (some ⟨2024, 5, 10⟩)) ∧
    (TramiteRepository.get_monthly_summary storeEmpty 1 ⟨2024, 6, 2⟩
        (some ⟨2024, 3, 15⟩) (some ⟨2024, 5, 10⟩)).monthly_data.length = 3 :=
  (C1_get_monthly_summary storeEmpty 1 ⟨2024, 6, 2⟩ ⟨2024, 3, 15⟩ ⟨2024, 5, 10⟩).1
    ⟨by decide, by decide, by decide⟩ ⟨by decide, by decide, by decide⟩ (by decide)
